import Mathlib

/-!
Shallow embedding of the apy_listener yield optimizers.

The embedded code lives in `src/cron_service.py` (the "Realtime" optimizer and
the decision policy `check_apr_difference_move` / `optimize_from_cron_data`)
and `src/cron_dummy.py` (the "Equilibrium" optimizer and the calibrated rate
model `estimate_apr_at_utilization`).  Python floats are modelled by exact
rationals; dictionaries keyed by protocol name by total functions on the
two-venue `Protocol` type, matching the two venues the service handles.
Fallible simulations return `Except MoveError`.
-/

/-- Parsed pool snapshot: dataclass `CronPoolData` (identical in
`cron_service.py` and `cron_dummy.py`): `current_apr`, `tvl`, `utilization`. -/
structure CronPoolData where
  current_apr : ℚ
  tvl : ℚ
  utilization : ℚ
deriving DecidableEq

/-- Property `CronPoolData.total_borrow`: `self.tvl * self.utilization`. -/
def CronPoolData.total_borrow (p : CronPoolData) : ℚ := p.tvl * p.utilization

/-- Property `CronPoolData.available_liquidity`: `self.tvl - self.total_borrow`. -/
def CronPoolData.available_liquidity (p : CronPoolData) : ℚ := p.tvl - p.total_borrow

/-- The two lending venues handled by the service. -/
inductive Protocol where
  | HyperFi
  | HyperLend
deriving DecidableEq

/-- One entry of the `PROTOCOL_PARAMS` dictionary (interest-rate-model
parameters of one venue). -/
structure IrmParams where
  kink : ℚ
  base_rate : ℚ
  slope1 : ℚ
  slope2 : ℚ
  reserve_factor : ℚ
deriving DecidableEq

/-- `calculate_borrow_apr` from `cron_service.py` (kinked borrow-rate model).
In the source the parameters come from the module-level `PROTOCOL_PARAMS`
dictionary (fetched on-chain at import time), so they are an argument here. -/
def calculate_borrow_apr (params : IrmParams) (utilization : ℚ) : ℚ :=
  if utilization ≤ params.kink then
    if 0 < params.kink then
      params.base_rate + params.slope1 * (utilization / params.kink)
    else
      params.base_rate
  else
    params.base_rate + params.slope1 +
      params.slope2 * ((utilization - params.kink) / (1 - params.kink))

/-- `calculate_supply_apr` from `cron_service.py`:
`borrow_apr * utilization * (1 - reserve_factor)`. -/
def calculate_supply_apr (params : IrmParams) (utilization : ℚ) : ℚ :=
  calculate_borrow_apr params utilization * utilization * (1 - params.reserve_factor)

/-- The hard-coded `PROTOCOL_PARAMS` dictionary of `cron_dummy.py`. -/
def PROTOCOL_PARAMS : Protocol → IrmParams
  | .HyperLend =>
      { kink := 0.80, base_rate := 0, slope1 := 0.052, slope2 := 1, reserve_factor := 0.10 }
  | .HyperFi =>
      { kink := 0.80, base_rate := 0, slope1 := 0.040, slope2 := 0.75, reserve_factor := 0.10 }

/-- The inner `model_supply` closure of `estimate_apr_at_utilization`
(`cron_dummy.py`): clamp utilization to `[0, 0.9999]`, kinked borrow rate with
the denominators guarded by `max(·, 1e-6)`, then
`borrow * (1 - reserve_factor) * u`. -/
def model_supply (params : IrmParams) (u0 : ℚ) : ℚ :=
  let u := max 0 (min 0.9999 u0)
  let borrow :=
    if u ≤ params.kink then
      params.base_rate + params.slope1 * (u / max params.kink 0.000001)
    else
      params.base_rate + params.slope1 +
        params.slope2 * ((u - params.kink) / max (1 - params.kink) 0.000001)
  borrow * (1 - params.reserve_factor) * u

/-- `estimate_apr_at_utilization` from `cron_dummy.py`: calibrated supply-rate
model.  `scale = current_apr / model_supply(current_util)` when the modeled
rate is positive, else `1`; result is `model_supply(utilization) * scale`.
The source looks the parameters up in `PROTOCOL_PARAMS[protocol]`; the lookup
is an argument here. -/
def estimate_apr_at_utilization (params : IrmParams)
    (utilization current_util current_apr : ℚ) : ℚ :=
  let base_at_current := model_supply params current_util
  let scale := if 0 < base_at_current then current_apr / base_at_current else 1
  model_supply params utilization * scale

/-- `sum(self.position.values())` over the two venues. -/
def totalBalance (position : Protocol → ℚ) : ℚ :=
  position .HyperFi + position .HyperLend

/-- Errors returned (as error dictionaries) by the two `analyze_move` methods. -/
inductive MoveError where
  | insufficientBalance
  | invalidAmount
  | kinkGuard (safe_cap : ℚ)
deriving DecidableEq

/-- `_max_move_to_keep_util_above` from `cron_service.py`:
`max(0, total_borrow / min_util - tvl)`.  (The source returns infinity when
`min_util <= 0`; its only call site passes `min_util = 0.80`, so the model
covers the positive case.) -/
def max_move_to_keep_util_above (pool : CronPoolData) (min_util : ℚ) : ℚ :=
  max 0 (pool.total_borrow / min_util - pool.tvl)

/-- Post-move source utilization as computed in
`RealtimeOptimizer.analyze_move`: `total_borrow / (tvl - amount)` when the new
TVL is positive, else `1.0`, then capped by `min(·, 1.0)`. -/
def rtNewUtilFrom (from_pool : CronPoolData) (amount : ℚ) : ℚ :=
  let new_tvl_from := from_pool.tvl - amount
  min (if 0 < new_tvl_from then from_pool.total_borrow / new_tvl_from else 1) 1

/-- Post-move destination utilization as computed in
`RealtimeOptimizer.analyze_move`: `total_borrow / (tvl + amount)` when the new
TVL is positive, else `0`, then capped by `min(·, 1.0)`. -/
def rtNewUtilTo (to_pool : CronPoolData) (amount : ℚ) : ℚ :=
  let new_tvl_to := to_pool.tvl + amount
  min (if 0 < new_tvl_to then to_pool.total_borrow / new_tvl_to else 0) 1

/-- The current-weighted-APR loop of `RealtimeOptimizer.analyze_move`:
model supply rate times balance, summed over positive balances, divided by the
total balance when positive. -/
def rtCurrentWeightedApr (params : Protocol → IrmParams) (pools : Protocol → CronPoolData)
    (position : Protocol → ℚ) : ℚ :=
  let acc :=
    (if 0 < position .HyperFi then
        calculate_supply_apr (params .HyperFi) (pools .HyperFi).utilization * position .HyperFi
      else 0) +
    (if 0 < position .HyperLend then
        calculate_supply_apr (params .HyperLend) (pools .HyperLend).utilization * position .HyperLend
      else 0)
  if 0 < totalBalance position then acc / totalBalance position else 0

/-- The dictionary returned by a successful `RealtimeOptimizer.analyze_move`,
together with its intermediate locals `new_tvl_*` and `new_balance_*`. -/
structure RtOutcome where
  amount : ℚ
  new_tvl_from : ℚ
  new_tvl_to : ℚ
  new_util_from : ℚ
  new_util_to : ℚ
  new_apr_from : ℚ
  new_apr_to : ℚ
  current_weighted_apr : ℚ
  new_weighted_apr : ℚ
  new_balance_from : ℚ
  new_balance_to : ℚ
  annual_gain_usd : ℚ
  gain_bps : ℚ
  from_crosses_kink : Bool
  to_crosses_kink : Bool
  profitable : Bool
deriving DecidableEq

/-- Body of `RealtimeOptimizer.analyze_move` (`cron_service.py`) after the
three error guards. -/
def rtAnalyzeMoveCore (params : Protocol → IrmParams) (pools : Protocol → CronPoolData)
    (position : Protocol → ℚ) (min_gain_bps gas_cost_usd amount : ℚ)
    (from_protocol to_protocol : Protocol) : RtOutcome :=
  let from_pool := pools from_protocol
  let to_pool := pools to_protocol
  let new_tvl_from := from_pool.tvl - amount
  let new_tvl_to := to_pool.tvl + amount
  let new_util_from := rtNewUtilFrom from_pool amount
  let new_util_to := rtNewUtilTo to_pool amount
  let new_apr_from := calculate_supply_apr (params from_protocol) new_util_from
  let new_apr_to := calculate_supply_apr (params to_protocol) new_util_to
  let total_balance := totalBalance position
  let current_weighted_apr := rtCurrentWeightedApr params pools position
  let new_balance_from := position from_protocol - amount
  let new_balance_to := position to_protocol + amount
  let new_weighted_apr :=
    if 0 < total_balance then
      (new_balance_from * new_apr_from + new_balance_to * new_apr_to) / total_balance
    else 0
  let annual_gain_usd := (new_weighted_apr - current_weighted_apr) * total_balance
  let gain_bps := (new_weighted_apr - current_weighted_apr) * 10000
  let kink := (params from_protocol).kink
  let from_crosses_kink : Bool :=
    decide ((from_pool.utilization < kink ∧ kink ≤ new_util_from) ∨
      (new_util_from < kink ∧ kink ≤ from_pool.utilization))
  let to_crosses_kink : Bool :=
    decide ((to_pool.utilization < kink ∧ kink ≤ new_util_to) ∨
      (new_util_to < kink ∧ kink ≤ to_pool.utilization))
  { amount := amount
    new_tvl_from := new_tvl_from
    new_tvl_to := new_tvl_to
    new_util_from := new_util_from
    new_util_to := new_util_to
    new_apr_from := new_apr_from
    new_apr_to := new_apr_to
    current_weighted_apr := current_weighted_apr
    new_weighted_apr := new_weighted_apr
    new_balance_from := new_balance_from
    new_balance_to := new_balance_to
    annual_gain_usd := annual_gain_usd
    gain_bps := gain_bps
    from_crosses_kink := from_crosses_kink
    to_crosses_kink := to_crosses_kink
    profitable := decide (min_gain_bps < gain_bps ∧ gas_cost_usd < annual_gain_usd) }

/-- `RealtimeOptimizer.analyze_move` (`cron_service.py`): insufficient-balance
guard, positive-amount guard, then the HyperLend kink guard (deposits into
HyperLend above `_max_move_to_keep_util_above(pool, 0.80)` are rejected and the
cap is reported), then the successful outcome. -/
def rtAnalyzeMove (params : Protocol → IrmParams) (pools : Protocol → CronPoolData)
    (position : Protocol → ℚ) (min_gain_bps gas_cost_usd amount : ℚ)
    (from_protocol to_protocol : Protocol) : Except MoveError RtOutcome :=
  if position from_protocol < amount then .error .insufficientBalance
  else if amount ≤ 0 then .error .invalidAmount
  else if to_protocol = Protocol.HyperLend ∧
      max_move_to_keep_util_above (pools to_protocol) 0.80 < amount then
    .error (.kinkGuard (max_move_to_keep_util_above (pools to_protocol) 0.80))
  else
    .ok (rtAnalyzeMoveCore params pools position min_gain_bps gas_cost_usd amount
      from_protocol to_protocol)

/-- Constructor arguments of `EquilibriumOptimizer` (`cron_dummy.py`). -/
structure EqConfig where
  min_gain_bps : ℚ
  max_spread_bps : ℚ
  min_safe_util : ℚ
  max_safe_util : ℚ
  gas_cost_usd : ℚ
deriving DecidableEq

/-- Post-move source utilization as computed in
`EquilibriumOptimizer.analyze_move` (no `min(·, 1.0)` cap in this variant). -/
def eqNewUtilFrom (from_pool : CronPoolData) (amount : ℚ) : ℚ :=
  let new_tvl_from := from_pool.tvl - amount
  if 0 < new_tvl_from then from_pool.total_borrow / new_tvl_from else 1

/-- Post-move destination utilization as computed in
`EquilibriumOptimizer.analyze_move` (no `min(·, 1.0)` cap in this variant). -/
def eqNewUtilTo (to_pool : CronPoolData) (amount : ℚ) : ℚ :=
  let new_tvl_to := to_pool.tvl + amount
  if 0 < new_tvl_to then to_pool.total_borrow / new_tvl_to else 0

/-- The current-weighted-APR loop of `EquilibriumOptimizer.analyze_move`
(uses the reported `current_apr` of each pool). -/
def eqCurrentWeightedApr (pools : Protocol → CronPoolData) (position : Protocol → ℚ) : ℚ :=
  let acc :=
    (if 0 < position .HyperFi then (pools .HyperFi).current_apr * position .HyperFi else 0) +
    (if 0 < position .HyperLend then (pools .HyperLend).current_apr * position .HyperLend else 0)
  if 0 < totalBalance position then acc / totalBalance position else 0

/-- The dictionary returned by a successful `EquilibriumOptimizer.analyze_move`,
together with its intermediate locals `new_tvl_*` and `new_balance_*`. -/
structure EqOutcome where
  amount : ℚ
  new_tvl_from : ℚ
  new_tvl_to : ℚ
  new_util_from : ℚ
  new_util_to : ℚ
  new_apr_from : ℚ
  new_apr_to : ℚ
  apr_spread : ℚ
  is_stable : Bool
  stability_score : ℚ
  current_weighted_apr : ℚ
  new_weighted_apr : ℚ
  new_balance_from : ℚ
  new_balance_to : ℚ
  annual_gain_usd : ℚ
  gain_bps : ℚ
  profitable : Bool
deriving DecidableEq

/-- Body of `EquilibriumOptimizer.analyze_move` (`cron_dummy.py`) after the two
error guards.  Note: `new_weighted_apr` divides by the total balance without a
guard, exactly as the source does. -/
def eqAnalyzeMoveCore (pools : Protocol → CronPoolData) (position : Protocol → ℚ)
    (config : EqConfig) (amount : ℚ) (from_protocol to_protocol : Protocol) : EqOutcome :=
  let from_pool := pools from_protocol
  let to_pool := pools to_protocol
  let new_tvl_from := from_pool.tvl - amount
  let new_tvl_to := to_pool.tvl + amount
  let new_util_from := eqNewUtilFrom from_pool amount
  let new_util_to := eqNewUtilTo to_pool amount
  let new_apr_from := estimate_apr_at_utilization (PROTOCOL_PARAMS from_protocol)
    new_util_from from_pool.utilization from_pool.current_apr
  let new_apr_to := estimate_apr_at_utilization (PROTOCOL_PARAMS to_protocol)
    new_util_to to_pool.utilization to_pool.current_apr
  let apr_spread := |new_apr_from - new_apr_to|
  let current_spread := |from_pool.current_apr - to_pool.current_apr|
  let is_stable : Bool :=
    decide ((config.min_safe_util ≤ new_util_from ∧ new_util_from ≤ config.max_safe_util ∧
        config.min_safe_util ≤ new_util_to ∧ new_util_to ≤ config.max_safe_util) ∧
      (apr_spread ≤ config.max_spread_bps / 10000 ∨ apr_spread < current_spread))
  let total_balance := totalBalance position
  let current_weighted_apr := eqCurrentWeightedApr pools position
  let new_balance_from := position from_protocol - amount
  let new_balance_to := position to_protocol + amount
  let new_weighted_apr :=
    (new_balance_from * new_apr_from + new_balance_to * new_apr_to) / total_balance
  let annual_gain_usd := (new_weighted_apr - current_weighted_apr) * total_balance
  let gain_bps := (new_weighted_apr - current_weighted_apr) * 10000
  let stability_score :=
    if is_stable then
      let optimal_util : ℚ := 0.825
      let util_score := 1 - (|new_util_from - optimal_util| + |new_util_to - optimal_util|) / 0.2
      let spread_score := 1 - apr_spread / (config.max_spread_bps / 10000)
      util_score * 0.6 + spread_score * 0.4
    else 0
  { amount := amount
    new_tvl_from := new_tvl_from
    new_tvl_to := new_tvl_to
    new_util_from := new_util_from
    new_util_to := new_util_to
    new_apr_from := new_apr_from
    new_apr_to := new_apr_to
    apr_spread := apr_spread
    is_stable := is_stable
    stability_score := stability_score
    current_weighted_apr := current_weighted_apr
    new_weighted_apr := new_weighted_apr
    new_balance_from := new_balance_from
    new_balance_to := new_balance_to
    annual_gain_usd := annual_gain_usd
    gain_bps := gain_bps
    profitable := decide (config.min_gain_bps < gain_bps ∧ config.gas_cost_usd < annual_gain_usd) }

/-- `EquilibriumOptimizer.analyze_move` (`cron_dummy.py`): insufficient-balance
guard, positive-amount guard, then the successful outcome. -/
def eqAnalyzeMove (pools : Protocol → CronPoolData) (position : Protocol → ℚ)
    (config : EqConfig) (amount : ℚ) (from_protocol to_protocol : Protocol) :
    Except MoveError EqOutcome :=
  if position from_protocol < amount then .error .insufficientBalance
  else if amount ≤ 0 then .error .invalidAmount
  else .ok (eqAnalyzeMoveCore pools position config amount from_protocol to_protocol)

/-- `withdraw_max` of spec section 4.3: maximum withdrawable while keeping
utilization at most `max_safe`, clipped at 0. -/
def withdraw_max (pool : CronPoolData) (max_safe : ℚ) : ℚ :=
  max 0 (pool.tvl - pool.total_borrow / max_safe)

/-- `deposit_max` of spec section 4.3: maximum depositable while keeping
utilization at least `min_safe`, clipped at 0 (positive `min_safe`). -/
def deposit_max (pool : CronPoolData) (min_safe : ℚ) : ℚ :=
  max 0 (pool.total_borrow / min_safe - pool.tvl)

/-- The `safe_max` computation of `EquilibriumOptimizer.find_optimal_equilibrium`
(`cron_dummy.py` lines 333-353) for one ordered `(source, dest)` pair:
`max_withdraw_allowed`, `max_from_util`, `max_to_util`, then `safe_max`, where
the destination limit is applied only when it is strictly positive.  The pair
is skipped when the result is `<= 0`. -/
def eqSafeMax (config : EqConfig) (from_pool to_pool : CronPoolData) (max_amount : ℚ) : ℚ :=
  let max_withdraw_allowed :=
    if 0 < config.max_safe_util then from_pool.tvl - from_pool.total_borrow / config.max_safe_util
    else max_amount
  let max_from_util := min max_amount (max 0 max_withdraw_allowed)
  let max_to_util := max 0 (to_pool.total_borrow / config.min_safe_util - to_pool.tvl)
  let safe_max := min max_amount (max 0 max_from_util)
  if 0 < max_to_util then min safe_max max_to_util else safe_max

/-- Modelled from the spec: section 4.3 states the usable search range for a
`(source, dest)` pair is `min(balance_available, withdraw_max(source),
deposit_max(dest))`, clipped to be non-negative.  This definition follows the
spec words and is compared against `eqSafeMax`, the range the code computes. -/
def specUsableRange (config : EqConfig) (from_pool to_pool : CronPoolData) (balance : ℚ) : ℚ :=
  max 0 (min balance
    (min (withdraw_max from_pool config.max_safe_util) (deposit_max to_pool config.min_safe_util)))

/-- Result of `check_apr_difference_move` (`cron_service.py`): either the
stay-put answer (`move_recommended = False`, `stay_put = True`), the full-move
recommendation (`move_recommended = True` with `amount` and `annual_gain`), or
the fall-through to normal optimization. -/
inductive AprCheckResult where
  | stayPut
  | fullMove (amount annual_gain : ℚ)
  | useOptimization
deriving DecidableEq

/-- `check_apr_difference_move` (`cron_service.py`): compute both venues'
model supply rates at their current utilizations; if they differ by at least
1.5 percentage points, recommend staying (when HyperFi is higher) or moving the
whole `current_hyperfi_deposit` to HyperLend with
`annual_gain = balance * (hyperlend_apr - hyperfi_apr)`; otherwise fall through
to normal optimization. -/
def check_apr_difference_move (params : Protocol → IrmParams) (pools : Protocol → CronPoolData)
    (current_hyperfi_deposit : ℚ) : AprCheckResult :=
  let hyperfi_apr := calculate_supply_apr (params .HyperFi) (pools .HyperFi).utilization
  let hyperlend_apr := calculate_supply_apr (params .HyperLend) (pools .HyperLend).utilization
  let apr_diff := |hyperfi_apr - hyperlend_apr| * 100
  let current_balance := current_hyperfi_deposit
  if 1.5 ≤ apr_diff then
    if hyperlend_apr < hyperfi_apr then AprCheckResult.stayPut
    else AprCheckResult.fullMove current_balance
      (current_balance * (hyperlend_apr - hyperfi_apr))
  else AprCheckResult.useOptimization

/-- `optimize_from_cron_data` (`cron_service.py`), up to the incremental search:
it runs `check_apr_difference_move` first and returns its answer whenever
`move_recommended` is true; otherwise it builds a `RealtimeOptimizer` and
returns `find_optimal_move()`, modelled here by the opaque-to-this-claim
`fallback` value. -/
def optimize_from_cron_data {α : Type} (params : Protocol → IrmParams)
    (pools : Protocol → CronPoolData) (current_hyperfi_deposit : ℚ) (fallback : α) :
    AprCheckResult ⊕ α :=
  match check_apr_difference_move params pools current_hyperfi_deposit with
  | AprCheckResult.fullMove a g => Sum.inl (AprCheckResult.fullMove a g)
  | _ => Sum.inr fallback

/-- `updateKinkAt p k params` replaces the kink of venue `p`, leaving every
other parameter untouched (used to show a venue's own kink is not consulted). -/
def updateKinkAt (p : Protocol) (k : ℚ) (params : Protocol → IrmParams) :
    Protocol → IrmParams :=
  fun q => if q = p then { params q with kink := k } else params q


/-! ## Concrete inputs used by witnesses and counterexamples -/

/-- Concrete interest-rate parameters making the two model supply rates exactly
12.00 percent (HyperFi) and 14.00 percent (HyperLend) at 80 percent
utilization, for the C1 witness. -/
def c1Params : Protocol → IrmParams
  | .HyperFi => { kink := 0.8, base_rate := 0, slope1 := 0.15, slope2 := 0, reserve_factor := 0 }
  | .HyperLend => { kink := 0.8, base_rate := 0, slope1 := 0.175, slope2 := 0, reserve_factor := 0 }

/-- Concrete pool snapshots for the C1 witness (balance held at the 12 percent
venue HyperFi). -/
def c1Pools : Protocol → CronPoolData
  | .HyperFi => { current_apr := 0.12, tvl := 3000000, utilization := 0.8 }
  | .HyperLend => { current_apr := 0.14, tvl := 3000000, utilization := 0.8 }

/-- Pools realizing the spec's stability-relaxation scenario: reported rates
12.5 and 15.5 percent (a 300 bps spread, above the 150 bps cap). -/
def c2Pools : Protocol → CronPoolData
  | .HyperFi => { current_apr := 0.125, tvl := 1000000, utilization := 0.81 }
  | .HyperLend => { current_apr := 0.155, tvl := 1000000, utilization := 0.86 }

/-- Position for the C2 witness: 200000 held at HyperFi. -/
def c2Position : Protocol → ℚ
  | .HyperFi => 200000
  | .HyperLend => 0

/-- The `optimize_for_equilibrium` reference configuration of `cron_dummy.py`. -/
def c2Config : EqConfig :=
  { min_gain_bps := 10, max_spread_bps := 150, min_safe_util := 0.805,
    max_safe_util := 0.87, gas_cost_usd := 10 }

/-- The spec's kink-guard scenario pool: HyperLend with total supplied
3000000 and utilization 0.78 (so utilization is already below the 0.80 floor). -/
def c3Pools : Protocol → CronPoolData
  | .HyperFi => { current_apr := 0.12, tvl := 1000000, utilization := 0.5 }
  | .HyperLend => { current_apr := 0.10, tvl := 3000000, utilization := 0.78 }

/-- Position for the C3 scenario: 300000 held at HyperFi. -/
def c3Position : Protocol → ℚ
  | .HyperFi => 300000
  | .HyperLend => 0

/-- Equilibrium configuration for the C4 inputs (reference values). -/
def c4Config : EqConfig :=
  { min_gain_bps := 10, max_spread_bps := 150, min_safe_util := 0.805,
    max_safe_util := 0.87, gas_cost_usd := 10 }

/-- Source pool for the C4 counterexample: utilization 0.80, so a positive
amount is withdrawable while staying at or below `max_safe_util = 0.87`. -/
def c4FromPool : CronPoolData := { current_apr := 0.11, tvl := 1000000, utilization := 0.80 }

/-- Destination pool for the C4 counterexample: utilization 0.50, far below
`min_safe_util = 0.805`, so its deposit cap is clipped to 0. -/
def c4ToPool : CronPoolData := { current_apr := 0.12, tvl := 1000000, utilization := 0.50 }

/-- Ordinary two-pool snapshot for the C6 counterexample. -/
def c6Pools : Protocol → CronPoolData
  | .HyperFi => { current_apr := 0.12, tvl := 1000000, utilization := 0.82 }
  | .HyperLend => { current_apr := 0.13, tvl := 1000000, utilization := 0.83 }

/-- Position for the C6 counterexample: 300000 held at HyperFi. -/
def c6Position : Protocol → ℚ
  | .HyperFi => 300000
  | .HyperLend => 0

/-- Equilibrium configuration for the C6 counterexample. -/
def c6Config : EqConfig :=
  { min_gain_bps := 10, max_spread_bps := 150, min_safe_util := 0.805,
    max_safe_util := 0.87, gas_cost_usd := 10 }

/-- A pool with zero borrows (utilization 0): its post-move source utilization
is constant 0, the C7 counterexample. -/
def c7ZeroBorrowPool : CronPoolData := { current_apr := 0.05, tvl := 100, utilization := 0 }

/-- Source pool with positive borrows for the C7 witness. -/
def c7FromPool : CronPoolData := { current_apr := 0.1, tvl := 100, utilization := 0.5 }

/-- Destination pool with positive borrows for the C7 witness. -/
def c7ToPool : CronPoolData := { current_apr := 0.1, tvl := 100, utilization := 0.5 }

/-- Two-pool snapshot for the C9 witness. -/
def c9Pools : Protocol → CronPoolData
  | .HyperFi => { current_apr := 0.12, tvl := 1000000, utilization := 0.82 }
  | .HyperLend => { current_apr := 0.13, tvl := 1000000, utilization := 0.79 }

/-- Position for the C9 witness. -/
def c9Position : Protocol → ℚ
  | .HyperFi => 250000
  | .HyperLend => 0

/-- Two-pool snapshot for the C10 witness. -/
def c10Pools : Protocol → CronPoolData
  | .HyperFi => { current_apr := 0.12, tvl := 1000000, utilization := 0.82 }
  | .HyperLend => { current_apr := 0.13, tvl := 1000000, utilization := 0.83 }

/-- Position for the C10 witness: 5000 at HyperFi, nothing at HyperLend. -/
def c10Position : Protocol → ℚ
  | .HyperFi => 5000
  | .HyperLend => 0

/-- Equilibrium configuration for the C10 witness. -/
def c10Config : EqConfig :=
  { min_gain_bps := 10, max_spread_bps := 150, min_safe_util := 0.805,
    max_safe_util := 0.87, gas_cost_usd := 10 }

/-! ## Claims -/

/-- Claim C5: for every curve parameter set with positive modeled supply rate
at the current utilization, the calibrated rate model evaluated at the current
utilization returns exactly the observed rate (the scale being
`observed / modeled`, and `1` when the modeled rate is not positive). -/
theorem C5_calibration_exact (params : IrmParams) (current_util current_apr : ℚ)
    (h : 0 < model_supply params current_util) :
    estimate_apr_at_utilization params current_util current_util current_apr = current_apr := by
  simp only [estimate_apr_at_utilization]
  rw [if_pos h, mul_comm, div_mul_cancel₀ _ h.ne']

/-- Witness for C5 at the hard-coded HyperLend parameters, current utilization
80 percent and observed rate 12.09 percent. -/
theorem C5_calibration_exact_witness :
    0 < model_supply (PROTOCOL_PARAMS .HyperLend) 0.80 ∧
    estimate_apr_at_utilization (PROTOCOL_PARAMS .HyperLend) 0.80 0.80 0.1209 = 0.1209 :=
  ⟨by norm_num [model_supply, PROTOCOL_PARAMS, min_def, max_def],
    C5_calibration_exact (PROTOCOL_PARAMS .HyperLend) 0.80 0.1209
      (by norm_num [model_supply, PROTOCOL_PARAMS, min_def, max_def])⟩

/-- Claim C8: every simulated move (realtime and equilibrium variant) sets the
post-move source supply to the old value minus the amount and the destination
supply to the old value plus the amount, computes both post-move utilizations
from the unchanged pre-move borrow amounts, and conserves the total position
balance exactly. -/
theorem C8_conservation (params : Protocol → IrmParams) (pools : Protocol → CronPoolData)
    (position : Protocol → ℚ) (min_gain_bps gas_cost_usd amount : ℚ) (config : EqConfig)
    (f t : Protocol) :
    ((rtAnalyzeMoveCore params pools position min_gain_bps gas_cost_usd amount f t).new_tvl_from
        = (pools f).tvl - amount ∧
      (rtAnalyzeMoveCore params pools position min_gain_bps gas_cost_usd amount f t).new_tvl_to
        = (pools t).tvl + amount ∧
      (rtAnalyzeMoveCore params pools position min_gain_bps gas_cost_usd amount f t).new_util_from
        = min (if 0 < (pools f).tvl - amount then
            (pools f).total_borrow / ((pools f).tvl - amount) else 1) 1 ∧
      (rtAnalyzeMoveCore params pools position min_gain_bps gas_cost_usd amount f t).new_util_to
        = min (if 0 < (pools t).tvl + amount then
            (pools t).total_borrow / ((pools t).tvl + amount) else 0) 1 ∧
      (rtAnalyzeMoveCore params pools position min_gain_bps gas_cost_usd amount f t).new_balance_from
        = position f - amount ∧
      (rtAnalyzeMoveCore params pools position min_gain_bps gas_cost_usd amount f t).new_balance_to
        = position t + amount ∧
      (rtAnalyzeMoveCore params pools position min_gain_bps gas_cost_usd amount f t).new_balance_from
          + (rtAnalyzeMoveCore params pools position min_gain_bps gas_cost_usd amount f t).new_balance_to
        = position f + position t) ∧
    ((eqAnalyzeMoveCore pools position config amount f t).new_tvl_from
        = (pools f).tvl - amount ∧
      (eqAnalyzeMoveCore pools position config amount f t).new_tvl_to
        = (pools t).tvl + amount ∧
      (eqAnalyzeMoveCore pools position config amount f t).new_util_from
        = (if 0 < (pools f).tvl - amount then
            (pools f).total_borrow / ((pools f).tvl - amount) else 1) ∧
      (eqAnalyzeMoveCore pools position config amount f t).new_util_to
        = (if 0 < (pools t).tvl + amount then
            (pools t).total_borrow / ((pools t).tvl + amount) else 0) ∧
      (eqAnalyzeMoveCore pools position config amount f t).new_balance_from
        = position f - amount ∧
      (eqAnalyzeMoveCore pools position config amount f t).new_balance_to
        = position t + amount ∧
      (eqAnalyzeMoveCore pools position config amount f t).new_balance_from
          + (eqAnalyzeMoveCore pools position config amount f t).new_balance_to
        = position f + position t) := by
  constructor
  · refine ⟨rfl, rfl, rfl, rfl, rfl, rfl, ?_⟩
    show (position f - amount) + (position t + amount) = position f + position t
    ring
  · refine ⟨rfl, rfl, rfl, rfl, rfl, rfl, ?_⟩
    show (position f - amount) + (position t + amount) = position f + position t
    ring

/-- Claim C1: when the two venues' current supply rates differ by at least 1.5
percentage points, the decision policy `check_apr_difference_move` bypasses the
incremental search: it recommends staying put when HyperFi has the higher rate,
and moving the entire balance to HyperLend with
`annual_gain = balance * (rate_gap)` when HyperLend has the higher rate, in
which case `optimize_from_cron_data` returns that recommendation without
running the optimizer. -/
theorem C1_full_move_shortcut (params : Protocol → IrmParams) (pools : Protocol → CronPoolData)
    (balance : ℚ) {α : Type} (fallback : α)
    (hdiff : (1.5 : ℚ) ≤
      |calculate_supply_apr (params .HyperFi) (pools .HyperFi).utilization -
        calculate_supply_apr (params .HyperLend) (pools .HyperLend).utilization| * 100) :
    (calculate_supply_apr (params .HyperLend) (pools .HyperLend).utilization <
        calculate_supply_apr (params .HyperFi) (pools .HyperFi).utilization →
      check_apr_difference_move params pools balance = AprCheckResult.stayPut) ∧
    (calculate_supply_apr (params .HyperFi) (pools .HyperFi).utilization <
        calculate_supply_apr (params .HyperLend) (pools .HyperLend).utilization →
      check_apr_difference_move params pools balance =
        AprCheckResult.fullMove balance
          (balance * (calculate_supply_apr (params .HyperLend) (pools .HyperLend).utilization -
            calculate_supply_apr (params .HyperFi) (pools .HyperFi).utilization)) ∧
      optimize_from_cron_data params pools balance fallback =
        Sum.inl (AprCheckResult.fullMove balance
          (balance * (calculate_supply_apr (params .HyperLend) (pools .HyperLend).utilization -
            calculate_supply_apr (params .HyperFi) (pools .HyperFi).utilization)))) := by
  constructor
  · intro hlt
    simp only [check_apr_difference_move]
    rw [if_pos hdiff, if_pos hlt]
  · intro hlt
    have h1 : check_apr_difference_move params pools balance =
        AprCheckResult.fullMove balance
          (balance * (calculate_supply_apr (params .HyperLend) (pools .HyperLend).utilization -
            calculate_supply_apr (params .HyperFi) (pools .HyperFi).utilization)) := by
      simp only [check_apr_difference_move]
      rw [if_pos hdiff, if_neg (not_lt.mpr hlt.le)]
    refine ⟨h1, ?_⟩
    unfold optimize_from_cron_data
    rw [h1]

/-- Witness for C1: with rates 12.00 and 14.00 percent and a 300000 balance at
HyperFi, the policy recommends moving 100 percent of the balance to HyperLend
with annual gain `6000 = 300000 * 0.02`, and `optimize_from_cron_data` returns
that shortcut. -/
theorem C1_full_move_shortcut_witness :
    ((1.5 : ℚ) ≤
      |calculate_supply_apr (c1Params .HyperFi) (c1Pools .HyperFi).utilization -
        calculate_supply_apr (c1Params .HyperLend) (c1Pools .HyperLend).utilization| * 100) ∧
    check_apr_difference_move c1Params c1Pools 300000 = AprCheckResult.fullMove 300000 6000 ∧
    (6000 : ℚ) = 300000 * 0.02 ∧
    optimize_from_cron_data c1Params c1Pools 300000 (0 : ℚ) =
      Sum.inl (AprCheckResult.fullMove 300000 6000) := by
  have hd : (1.5 : ℚ) ≤
      |calculate_supply_apr (c1Params .HyperFi) (c1Pools .HyperFi).utilization -
        calculate_supply_apr (c1Params .HyperLend) (c1Pools .HyperLend).utilization| * 100 := by
    norm_num [calculate_supply_apr, calculate_borrow_apr, c1Params, c1Pools, abs, max_def]
  have hlt : calculate_supply_apr (c1Params .HyperFi) (c1Pools .HyperFi).utilization <
      calculate_supply_apr (c1Params .HyperLend) (c1Pools .HyperLend).utilization := by
    norm_num [calculate_supply_apr, calculate_borrow_apr, c1Params, c1Pools, abs, max_def]
  have h := (C1_full_move_shortcut c1Params c1Pools 300000 (0 : ℚ) hd).2 hlt
  refine ⟨hd, h.1.trans ?_, by norm_num, h.2.trans ?_⟩
  · norm_num [calculate_supply_apr, calculate_borrow_apr, c1Params, c1Pools, abs, max_def]
  · norm_num [calculate_supply_apr, calculate_borrow_apr, c1Params, c1Pools, abs, max_def]

/-- Claim C2: for every move simulated by the equilibrium `analyze_move`, the
returned `is_stable` flag is true if and only if both post-move utilizations
lie within `[min_safe_util, max_safe_util]` and either the post-move spread is
at most `max_spread_bps / 10000` or the post-move spread is strictly smaller
than the pre-move spread. -/
theorem C2_is_stable_iff (pools : Protocol → CronPoolData) (position : Protocol → ℚ)
    (config : EqConfig) (amount : ℚ) (f t : Protocol) (r : EqOutcome)
    (h : eqAnalyzeMove pools position config amount f t = Except.ok r) :
    (r.is_stable = true ↔
      ((config.min_safe_util ≤ r.new_util_from ∧ r.new_util_from ≤ config.max_safe_util ∧
        config.min_safe_util ≤ r.new_util_to ∧ r.new_util_to ≤ config.max_safe_util) ∧
       (r.apr_spread ≤ config.max_spread_bps / 10000 ∨
        r.apr_spread < |(pools f).current_apr - (pools t).current_apr|))) := by
  have hr : eqAnalyzeMoveCore pools position config amount f t = r := by
    unfold eqAnalyzeMove at h
    by_cases h1 : position f < amount
    · rw [if_pos h1] at h
      exact absurd h (by simp)
    · rw [if_neg h1] at h
      by_cases h2 : amount ≤ 0
      · rw [if_pos h2] at h
        exact absurd h (by simp)
      · rw [if_neg h2] at h
        exact Except.ok.inj h
  subst hr
  simp only [eqAnalyzeMoveCore, decide_eq_true_eq]

/-- Witness for C2 on the stability-relaxation scenario: the spread starts at
300 bps, the simulated 1400 move leaves both utilizations inside
`[0.805, 0.87]` and shrinks the spread (still above the 150 bps cap). -/
theorem C2_is_stable_iff_witness :
    ((eqAnalyzeMoveCore c2Pools c2Position c2Config 1400 .HyperFi .HyperLend).is_stable = true ↔
      ((c2Config.min_safe_util ≤
          (eqAnalyzeMoveCore c2Pools c2Position c2Config 1400 .HyperFi .HyperLend).new_util_from ∧
        (eqAnalyzeMoveCore c2Pools c2Position c2Config 1400 .HyperFi .HyperLend).new_util_from ≤
          c2Config.max_safe_util ∧
        c2Config.min_safe_util ≤
          (eqAnalyzeMoveCore c2Pools c2Position c2Config 1400 .HyperFi .HyperLend).new_util_to ∧
        (eqAnalyzeMoveCore c2Pools c2Position c2Config 1400 .HyperFi .HyperLend).new_util_to ≤
          c2Config.max_safe_util) ∧
       ((eqAnalyzeMoveCore c2Pools c2Position c2Config 1400 .HyperFi .HyperLend).apr_spread ≤
          c2Config.max_spread_bps / 10000 ∨
        (eqAnalyzeMoveCore c2Pools c2Position c2Config 1400 .HyperFi .HyperLend).apr_spread <
          |(c2Pools .HyperFi).current_apr - (c2Pools .HyperLend).current_apr|))) :=
  C2_is_stable_iff c2Pools c2Position c2Config 1400 .HyperFi .HyperLend _ (by
    unfold eqAnalyzeMove
    rw [if_neg (by norm_num [c2Position]), if_neg (by norm_num)])

/-- The stability relaxation on concrete data: the 1400 move keeps both
utilizations in the safe band and is classified stable although its post-move
spread exceeds the 150 bps cap, because it strictly shrinks the 300 bps
pre-move spread. -/
theorem eq_stability_relaxation_demo :
    (eqAnalyzeMoveCore c2Pools c2Position c2Config 1400 .HyperFi .HyperLend).is_stable = true ∧
    c2Config.max_spread_bps / 10000 <
      (eqAnalyzeMoveCore c2Pools c2Position c2Config 1400 .HyperFi .HyperLend).apr_spread ∧
    (eqAnalyzeMoveCore c2Pools c2Position c2Config 1400 .HyperFi .HyperLend).apr_spread <
      |(c2Pools .HyperFi).current_apr - (c2Pools .HyperLend).current_apr| := by
  refine ⟨?_, ?_, ?_⟩ <;>
    norm_num [eqAnalyzeMoveCore, eqNewUtilFrom, eqNewUtilTo, estimate_apr_at_utilization,
      model_supply, PROTOCOL_PARAMS, eqCurrentWeightedApr, totalBalance,
      CronPoolData.total_borrow, c2Pools, c2Position, c2Config, min_def, max_def, abs,
      decide_eq_true_eq]

/-- Claim C6 counterexample: simulating a move of amount 0 does not return an
outcome at all; both optimizers reject it with the `InvalidAmount` error, so no
pre- and post-move weighted rates are reported. -/
theorem C6_counterexample :
    rtAnalyzeMove PROTOCOL_PARAMS c6Pools c6Position 0.1 10 0 .HyperFi .HyperLend =
      Except.error MoveError.invalidAmount ∧
    (rtAnalyzeMove PROTOCOL_PARAMS c6Pools c6Position 0.1 10 0 .HyperFi .HyperLend).isOk
      = false ∧
    eqAnalyzeMove c6Pools c6Position c6Config 0 .HyperFi .HyperLend =
      Except.error MoveError.invalidAmount ∧
    (eqAnalyzeMove c6Pools c6Position c6Config 0 .HyperFi .HyperLend).isOk = false := by
  have h1 : ¬ (c6Position Protocol.HyperFi < (0 : ℚ)) := by norm_num [c6Position]
  have hrt : rtAnalyzeMove PROTOCOL_PARAMS c6Pools c6Position 0.1 10 0 .HyperFi .HyperLend =
      Except.error MoveError.invalidAmount := by
    unfold rtAnalyzeMove
    rw [if_neg h1, if_pos le_rfl]
  have heq : eqAnalyzeMove c6Pools c6Position c6Config 0 .HyperFi .HyperLend =
      Except.error MoveError.invalidAmount := by
    unfold eqAnalyzeMove
    rw [if_neg h1, if_pos le_rfl]
  exact ⟨hrt, by rw [hrt]; rfl, heq, by rw [heq]; rfl⟩

/-- Claim C6 amended: simulating a move of amount 0 never yields an outcome:
both `analyze_move` variants reject it (with the amount-must-be-positive error,
or the insufficient-balance error when the held balance is negative), so a zero
move never reports profitability and the position is left untouched. -/
theorem C6_zero_move_amended (params : Protocol → IrmParams) (pools : Protocol → CronPoolData)
    (position : Protocol → ℚ) (min_gain_bps gas_cost_usd : ℚ) (config : EqConfig)
    (f t : Protocol) :
    (rtAnalyzeMove params pools position min_gain_bps gas_cost_usd 0 f t).isOk = false ∧
    (eqAnalyzeMove pools position config 0 f t).isOk = false := by
  constructor
  · unfold rtAnalyzeMove
    by_cases h1 : position f < 0
    · rw [if_pos h1]; rfl
    · rw [if_neg h1, if_pos le_rfl]; rfl
  · unfold eqAnalyzeMove
    by_cases h1 : position f < 0
    · rw [if_pos h1]; rfl
    · rw [if_neg h1, if_pos le_rfl]; rfl

/-- Claim C10: any equilibrium `analyze_move` call with non-negative balances
that passes the two error guards has a strictly positive total position
balance, so the unguarded division defining `new_weighted_apr` never divides
by zero. -/
theorem C10_total_balance_pos (pools : Protocol → CronPoolData) (position : Protocol → ℚ)
    (config : EqConfig) (amount : ℚ) (f t : Protocol) (r : EqOutcome)
    (hnn : ∀ p, 0 ≤ position p)
    (h : eqAnalyzeMove pools position config amount f t = Except.ok r) :
    0 < totalBalance position := by
  unfold eqAnalyzeMove at h
  by_cases h1 : position f < amount
  · rw [if_pos h1] at h
    exact absurd h (by simp)
  · rw [if_neg h1] at h
    by_cases h2 : amount ≤ 0
    · rw [if_pos h2] at h
      exact absurd h (by simp)
    · have ha : 0 < amount := not_le.mp h2
      have hb : amount ≤ position f := not_lt.mp h1
      have hF := hnn Protocol.HyperFi
      have hL := hnn Protocol.HyperLend
      unfold totalBalance
      cases f
      · linarith
      · linarith

/-- Witness for C10 at a concrete successful simulation. -/
theorem C10_total_balance_pos_witness :
    (∀ p, 0 ≤ c10Position p) ∧ 0 < totalBalance c10Position :=
  ⟨fun p => by cases p <;> norm_num [c10Position],
    C10_total_balance_pos c10Pools c10Position c10Config 1000 .HyperFi .HyperLend _
      (fun p => by cases p <;> norm_num [c10Position])
      (by
        unfold eqAnalyzeMove
        rw [if_neg (by norm_num [c10Position]), if_neg (by norm_num)])⟩

/-- Claim C3 counterexample: in the spec's own scenario (HyperLend at
`total_supplied = 3000000`, `utilization = 0.78`), any deposit trips the kink
guard, but the reported `safe_cap` is `0` and not the spec's formula
`total_borrowed / 0.80 - total_supplied`, which evaluates to `-75000` here:
the code clips the cap at zero. -/
theorem C3_counterexample :
    rtAnalyzeMove PROTOCOL_PARAMS c3Pools c3Position 0.1 10 1000 .HyperFi .HyperLend =
      Except.error (MoveError.kinkGuard 0) ∧
    (c3Pools .HyperLend).total_borrow / 0.80 - (c3Pools .HyperLend).tvl = -75000 := by
  constructor
  · unfold rtAnalyzeMove
    rw [if_neg (by norm_num [c3Position]), if_neg (by norm_num),
      if_pos ⟨rfl, by
        norm_num [max_move_to_keep_util_above, CronPoolData.total_borrow, c3Pools, max_def]⟩]
    norm_num [max_move_to_keep_util_above, CronPoolData.total_borrow, c3Pools, max_def]
  · norm_num [CronPoolData.total_borrow, c3Pools]

/-- Claim C3 amended: every deposit into HyperLend that would leave its
utilization strictly below the 0.80 floor fails with the kink-guard error, and
the reported cap is `max(0, total_borrowed / 0.80 - total_supplied)` — the
spec's formula clipped at zero (so it is `0`, not a negative amount, in the
spec's `utilization = 0.78` scenario). -/
theorem C3_kink_guard_amended (params : Protocol → IrmParams) (pools : Protocol → CronPoolData)
    (position : Protocol → ℚ) (min_gain_bps gas_cost_usd amount : ℚ) (f : Protocol)
    (hpos : 0 < amount) (hbal : amount ≤ position f)
    (htvl : 0 ≤ (pools Protocol.HyperLend).tvl)
    (hutil : (pools Protocol.HyperLend).total_borrow /
        ((pools Protocol.HyperLend).tvl + amount) < 0.80) :
    rtAnalyzeMove params pools position min_gain_bps gas_cost_usd amount f Protocol.HyperLend =
      Except.error (MoveError.kinkGuard
        (max 0 ((pools Protocol.HyperLend).total_borrow / 0.80 -
          (pools Protocol.HyperLend).tvl))) := by
  have hden : (0 : ℚ) < (pools Protocol.HyperLend).tvl + amount := by linarith
  have hb : (pools Protocol.HyperLend).total_borrow <
      0.80 * ((pools Protocol.HyperLend).tvl + amount) := by
    have h := (div_lt_iff₀ hden).mp hutil
    linarith
  have hcap : max_move_to_keep_util_above (pools Protocol.HyperLend) 0.80 < amount := by
    unfold max_move_to_keep_util_above
    rw [max_lt_iff]
    refine ⟨hpos, ?_⟩
    rw [sub_lt_iff_lt_add, div_lt_iff₀ (by norm_num : (0 : ℚ) < 0.80)]
    linarith
  unfold rtAnalyzeMove
  rw [if_neg (not_lt.mpr hbal), if_neg (not_le.mpr hpos), if_pos ⟨rfl, hcap⟩]
  rfl

/-- Witness for the amended C3 on the spec's scenario: a 1000 deposit into the
HyperLend pool at utilization 0.78 fails with the kink guard reporting the
clipped cap. -/
theorem C3_kink_guard_amended_witness :
    ((0 : ℚ) < 1000) ∧
    rtAnalyzeMove PROTOCOL_PARAMS c3Pools c3Position 0.1 10 1000 .HyperFi Protocol.HyperLend =
      Except.error (MoveError.kinkGuard
        (max 0 ((c3Pools Protocol.HyperLend).total_borrow / 0.80 -
          (c3Pools Protocol.HyperLend).tvl))) :=
  ⟨by norm_num,
    C3_kink_guard_amended PROTOCOL_PARAMS c3Pools c3Position 0.1 10 1000 .HyperFi
      (by norm_num) (by norm_num [c3Position]) (by norm_num [c3Pools])
      (by norm_num [CronPoolData.total_borrow, c3Pools])⟩

/-- Claim C4 counterexample: when the destination deposit cap clips to 0 (its
utilization is below `min_safe_util`), the code does not shrink the range to 0
and does not skip the pair: here `deposit_max = 0` yet the computed range is
`7000000 / 87` (about 80460), positive, while the spec formula gives 0. -/
theorem C4_counterexample :
    deposit_max c4ToPool c4Config.min_safe_util = 0 ∧
    eqSafeMax c4Config c4FromPool c4ToPool 100000 = 7000000 / 87 ∧
    specUsableRange c4Config c4FromPool c4ToPool 100000 = 0 ∧
    0 < eqSafeMax c4Config c4FromPool c4ToPool 100000 := by
  refine ⟨?_, ?_, ?_, ?_⟩ <;>
    norm_num [deposit_max, withdraw_max, eqSafeMax, specUsableRange,
      CronPoolData.total_borrow, c4Config, c4FromPool, c4ToPool, min_def, max_def]

/-- Claim C4 amended: for a non-negative balance (and positive
`max_safe_util`), the usable range equals
`min(balance, withdraw_max(source))` further capped by `deposit_max(dest)`
only when that deposit cap is strictly positive; a zero deposit cap is ignored
rather than zeroing the range. -/
theorem C4_safe_range_amended (config : EqConfig) (from_pool to_pool : CronPoolData)
    (balance : ℚ) (hb : 0 ≤ balance) (hms : 0 < config.max_safe_util) :
    eqSafeMax config from_pool to_pool balance =
      (if 0 < deposit_max to_pool config.min_safe_util then
        min (min balance (withdraw_max from_pool config.max_safe_util))
          (deposit_max to_pool config.min_safe_util)
      else min balance (withdraw_max from_pool config.max_safe_util)) := by
  simp only [eqSafeMax, withdraw_max, deposit_max]
  rw [if_pos hms]
  have h0w : (0 : ℚ) ≤
      max 0 (from_pool.tvl - from_pool.total_borrow / config.max_safe_util) :=
    le_max_left _ _
  rw [max_eq_right (le_min hb h0w), ← min_assoc, min_self]

/-- Witness for the amended C4 at the C4 concrete inputs (deposit cap 0, so
only the source-side limit applies). -/
theorem C4_safe_range_amended_witness :
    ((0 : ℚ) ≤ 100000) ∧
    eqSafeMax c4Config c4FromPool c4ToPool 100000 =
      (if 0 < deposit_max c4ToPool c4Config.min_safe_util then
        min (min 100000 (withdraw_max c4FromPool c4Config.max_safe_util))
          (deposit_max c4ToPool c4Config.min_safe_util)
      else min 100000 (withdraw_max c4FromPool c4Config.max_safe_util)) :=
  ⟨by norm_num,
    C4_safe_range_amended c4Config c4FromPool c4ToPool 100000 (by norm_num)
      (by norm_num [c4Config])⟩

/-- Claim C7 counterexample: for a pool with zero borrows (utilization 0) the
post-move source utilization is constant: amounts 1 and 2 both yield 0, which
is neither a strict increase nor the 1.0 cap, so strict monotonicity of the
source utilization fails as stated. -/
theorem C7_counterexample :
    ((1 : ℚ) < 2) ∧
    rtNewUtilFrom c7ZeroBorrowPool 1 = 0 ∧
    rtNewUtilFrom c7ZeroBorrowPool 2 = 0 ∧
    eqNewUtilFrom c7ZeroBorrowPool 1 = 0 ∧
    eqNewUtilFrom c7ZeroBorrowPool 2 = 0 := by
  refine ⟨by norm_num, ?_, ?_, ?_, ?_⟩ <;>
    norm_num [rtNewUtilFrom, eqNewUtilFrom, CronPoolData.total_borrow, c7ZeroBorrowPool,
      min_def, max_def]

/-- Claim C7 amended: when both pools have strictly positive borrows (and the
destination a non-negative supply), a strictly larger amount strictly raises
the post-move source utilization unless the result is saturated at 1, and
strictly lowers the post-move destination utilization unless the realtime
variant has already capped it at 1 (the destination never clamps at 0); the
uncapped equilibrium destination utilization is always strictly decreasing. -/
theorem C7_monotonicity_amended (from_pool to_pool : CronPoolData) (a1 a2 : ℚ)
    (hbf : 0 < from_pool.total_borrow) (hbt : 0 < to_pool.total_borrow)
    (htvl : 0 ≤ to_pool.tvl) (h1 : 0 < a1) (h12 : a1 < a2) :
    (rtNewUtilFrom from_pool a1 < rtNewUtilFrom from_pool a2 ∨
      rtNewUtilFrom from_pool a2 = 1) ∧
    (rtNewUtilTo to_pool a2 < rtNewUtilTo to_pool a1 ∨ rtNewUtilTo to_pool a1 = 1) ∧
    (eqNewUtilFrom from_pool a1 < eqNewUtilFrom from_pool a2 ∨
      eqNewUtilFrom from_pool a2 = 1) ∧
    (eqNewUtilTo to_pool a2 < eqNewUtilTo to_pool a1) := by
  have hn : from_pool.tvl - a2 < from_pool.tvl - a1 := by linarith
  have hd1 : (0 : ℚ) < to_pool.tvl + a1 := by linarith
  have hd2 : (0 : ℚ) < to_pool.tvl + a2 := by linarith
  have hd12 : to_pool.tvl + a1 < to_pool.tvl + a2 := by linarith
  have hqd : to_pool.total_borrow / (to_pool.tvl + a2) <
      to_pool.total_borrow / (to_pool.tvl + a1) :=
    div_lt_div_of_pos_left hbt hd1 hd12
  refine ⟨?_, ?_, ?_, ?_⟩
  · simp only [rtNewUtilFrom]
    by_cases hn2 : 0 < from_pool.tvl - a2
    · have hn1 : 0 < from_pool.tvl - a1 := hn2.trans hn
      rw [if_pos hn1, if_pos hn2]
      have hx : from_pool.total_borrow / (from_pool.tvl - a1) <
          from_pool.total_borrow / (from_pool.tvl - a2) :=
        div_lt_div_of_pos_left hbf hn2 hn
      by_cases hx2 : 1 ≤ from_pool.total_borrow / (from_pool.tvl - a2)
      · right
        exact min_eq_right hx2
      · left
        have hx2lt : from_pool.total_borrow / (from_pool.tvl - a2) < 1 := not_le.mp hx2
        rw [min_eq_left hx2lt.le, min_eq_left (hx.trans hx2lt).le]
        exact hx
    · right
      rw [if_neg hn2, min_self]
  · simp only [rtNewUtilTo]
    rw [if_pos hd1, if_pos hd2]
    by_cases hy1 : 1 ≤ to_pool.total_borrow / (to_pool.tvl + a1)
    · right
      exact min_eq_right hy1
    · left
      have hy1lt : to_pool.total_borrow / (to_pool.tvl + a1) < 1 := not_le.mp hy1
      rw [min_eq_left hy1lt.le, min_eq_left (hqd.trans hy1lt).le]
      exact hqd
  · simp only [eqNewUtilFrom]
    by_cases hn2 : 0 < from_pool.tvl - a2
    · have hn1 : 0 < from_pool.tvl - a1 := hn2.trans hn
      rw [if_pos hn1, if_pos hn2]
      exact Or.inl (div_lt_div_of_pos_left hbf hn2 hn)
    · right
      rw [if_neg hn2]
  · simp only [eqNewUtilTo]
    rw [if_pos hd1, if_pos hd2]
    exact hqd

/-- Witness for the amended C7 at two pools with positive borrows and amounts
1 and 2. -/
theorem C7_monotonicity_amended_witness :
    ((0 : ℚ) < 1) ∧
    ((rtNewUtilFrom c7FromPool 1 < rtNewUtilFrom c7FromPool 2 ∨
      rtNewUtilFrom c7FromPool 2 = 1) ∧
    (rtNewUtilTo c7ToPool 2 < rtNewUtilTo c7ToPool 1 ∨ rtNewUtilTo c7ToPool 1 = 1) ∧
    (eqNewUtilFrom c7FromPool 1 < eqNewUtilFrom c7FromPool 2 ∨
      eqNewUtilFrom c7FromPool 2 = 1) ∧
    (eqNewUtilTo c7ToPool 2 < eqNewUtilTo c7ToPool 1)) :=
  ⟨by norm_num,
    C7_monotonicity_amended c7FromPool c7ToPool 1 2
      (by norm_num [CronPoolData.total_borrow, c7FromPool])
      (by norm_num [CronPoolData.total_borrow, c7ToPool])
      (by norm_num [c7ToPool]) (by norm_num) (by norm_num)⟩

/-- Claim C9: both kink-crossing flags of the realtime `analyze_move` are
computed against the source venue's kink: the destination flag compares the
destination utilizations with `params[from].kink`, and replacing the
destination venue's own kink by any other value changes neither flag. -/
theorem C9_kink_crossings_use_source_kink (params : Protocol → IrmParams)
    (pools : Protocol → CronPoolData) (position : Protocol → ℚ)
    (min_gain_bps gas_cost_usd amount : ℚ) (f t : Protocol) (k2 : ℚ) (hft : f ≠ t) :
    ((rtAnalyzeMoveCore params pools position min_gain_bps gas_cost_usd amount f t).to_crosses_kink
      = decide (((pools t).utilization < (params f).kink ∧
          (params f).kink ≤ rtNewUtilTo (pools t) amount) ∨
        (rtNewUtilTo (pools t) amount < (params f).kink ∧
          (params f).kink ≤ (pools t).utilization))) ∧
    ((rtAnalyzeMoveCore (updateKinkAt t k2 params) pools position min_gain_bps gas_cost_usd
        amount f t).to_crosses_kink
      = (rtAnalyzeMoveCore params pools position min_gain_bps gas_cost_usd amount f
          t).to_crosses_kink) ∧
    ((rtAnalyzeMoveCore (updateKinkAt t k2 params) pools position min_gain_bps gas_cost_usd
        amount f t).from_crosses_kink
      = (rtAnalyzeMoveCore params pools position min_gain_bps gas_cost_usd amount f
          t).from_crosses_kink) := by
  have hk : updateKinkAt t k2 params f = params f := by
    unfold updateKinkAt
    rw [if_neg hft]
  refine ⟨rfl, ?_, ?_⟩ <;> simp only [rtAnalyzeMoveCore, hk]

/-- Witness for C9: concrete pools where replacing the destination kink by 0.5
leaves both crossing flags unchanged. -/
theorem C9_kink_crossings_use_source_kink_witness :
    (Protocol.HyperFi ≠ Protocol.HyperLend) ∧
    ((rtAnalyzeMoveCore (updateKinkAt .HyperLend 0.5 PROTOCOL_PARAMS) c9Pools c9Position 0.1 10
        20000 .HyperFi .HyperLend).to_crosses_kink
      = (rtAnalyzeMoveCore PROTOCOL_PARAMS c9Pools c9Position 0.1 10 20000 .HyperFi
          .HyperLend).to_crosses_kink) ∧
    ((rtAnalyzeMoveCore (updateKinkAt .HyperLend 0.5 PROTOCOL_PARAMS) c9Pools c9Position 0.1 10
        20000 .HyperFi .HyperLend).from_crosses_kink
      = (rtAnalyzeMoveCore PROTOCOL_PARAMS c9Pools c9Position 0.1 10 20000 .HyperFi
          .HyperLend).from_crosses_kink) := by
  have h := C9_kink_crossings_use_source_kink PROTOCOL_PARAMS c9Pools c9Position 0.1 10 20000
    .HyperFi .HyperLend 0.5 (by simp)
  exact ⟨by simp, h.2.1, h.2.2⟩
